import Mathlib

/-!
Verification of the risk-scoring and allocation-decision engine of the
VaultLot vault-management agent.

The embedding below follows two Python sources:
- backend/etherlink-vault-agent/ml-risk/risk_api.py   (class RiskAssessmentAPI)
- backend/etherlink-vault-agent/enhanced_etherlink_agent.py
  (tool rebalance_strategy_allocations, allocation-policy portion)

Numeric values are modelled over the rationals.  The trained scikit-learn
models (scaler, RandomForestRegressor, IsolationForest) and the sampled
Gaussian noise are external, non-algorithmic inputs of the code; they are
modelled as explicit oracle parameters: a NoiseSample record for the
perturbation draws, and a prediction / feature-variance / anomaly-flag
triple for the model outputs.  A Python exception inside a try-block is
modelled by the Except.error case of the corresponding oracle outcome.
-/

namespace RiskAPI

/-- Clamping to an interval, the semantics of np.clip(x, lo, hi). -/
def clip (lo hi x : ℚ) : ℚ := min hi (max lo x)

/-- Embeds the RiskFactors dataclass of risk_api.py. -/
structure RiskFactors where
  smart_contract_risk : ℚ
  liquidity_risk : ℚ
  market_risk : ℚ
  operational_risk : ℚ
  technical_risk : ℚ
  composability_risk : ℚ

/-- Embeds the RiskAssessment dataclass of risk_api.py.  The timestamp
(datetime.now() in the code) is an opaque external input, carried through
as a rational parameter. -/
structure RiskAssessment where
  strategy_address : String
  risk_score : ℚ
  risk_level : String
  confidence : ℚ
  risk_factors : RiskFactors
  recommendations : List String
  timestamp : ℚ
  model_version : String

/-- Embeds the feature dictionary built by
RiskAssessmentAPI._extract_strategy_features, with the canonical
feature-column names of the class. -/
structure Features where
  tvl : ℚ
  apy : ℚ
  volume_24h : ℚ
  liquidity_depth : ℚ
  age_days : ℚ
  audit_score : ℚ
  governance_score : ℚ
  team_score : ℚ
  volatility : ℚ
  slippage : ℚ
  impermanent_loss_risk : ℚ
  smart_contract_complexity : ℚ

/-- One Gaussian draw per feature field: the values np.random.normal
produces inside _extract_strategy_features, given as an explicit oracle. -/
structure NoiseSample where
  tvl : ℚ
  apy : ℚ
  volume_24h : ℚ
  liquidity_depth : ℚ
  age_days : ℚ
  audit_score : ℚ
  governance_score : ℚ
  team_score : ℚ
  volatility : ℚ
  slippage : ℚ
  impermanent_loss_risk : ℚ
  smart_contract_complexity : ℚ

/-- Character-list test: does the second list start with the first? -/
def charsStartWith : List Char → List Char → Bool
  | [], _ => true
  | _ :: _, [] => false
  | p :: ps, c :: cs => p == c && charsStartWith ps cs

/-- Character-list substring occurrence test. -/
def charsContain (pat : List Char) : List Char → Bool
  | [] => pat.isEmpty
  | c :: cs => charsStartWith pat (c :: cs) || charsContain pat cs

/-- Lower-cased character list of a string, the semantics of
Python str.lower() for the ASCII identifiers used here. -/
def lowerChars (s : String) : List Char := s.toList.map Char.toLower

/-- Substring test on an already lower-cased character list, the
semantics of the Python expression (pat in address_lower). -/
def strContains (s : List Char) (pat : String) : Bool := charsContain pat.toList s

/-- Embeds RiskAssessmentAPI._identify_strategy_type of risk_api.py. -/
def identifyStrategyType (strategy_address : String) : String :=
  let address_lower := lowerChars strategy_address
  if strContains address_lower ("superlend") || strContains address_lower ("1864ada") then
    ("lending")
  else if strContains address_lower ("pancake") || strContains address_lower ("888e307") then
    ("dex")
  else if strContains address_lower ("lottery") || strContains address_lower ("3dc0390") then
    ("lottery")
  else
    ("unknown")

/-- Base feature values of the lending branch of _extract_strategy_features. -/
def lendingBase : Features :=
  { tvl := 1000000, apy := 5.5, volume_24h := 100000, liquidity_depth := 500000,
    age_days := 180, audit_score := 0.85, governance_score := 0.75, team_score := 0.8,
    volatility := 0.15, slippage := 0.005, impermanent_loss_risk := 0.1,
    smart_contract_complexity := 0.4 }

/-- Base feature values of the dex branch of _extract_strategy_features. -/
def dexBase : Features :=
  { tvl := 2000000, apy := 12.0, volume_24h := 500000, liquidity_depth := 800000,
    age_days := 120, audit_score := 0.7, governance_score := 0.65, team_score := 0.75,
    volatility := 0.35, slippage := 0.02, impermanent_loss_risk := 0.6,
    smart_contract_complexity := 0.7 }

/-- Base feature values of the lottery branch of _extract_strategy_features. -/
def lotteryBase : Features :=
  { tvl := 500000, apy := 3.0, volume_24h := 50000, liquidity_depth := 250000,
    age_days := 60, audit_score := 0.9, governance_score := 0.8, team_score := 0.85,
    volatility := 0.1, slippage := 0.001, impermanent_loss_risk := 0.05,
    smart_contract_complexity := 0.3 }

/-- Base feature values of the default branch of _extract_strategy_features. -/
def unknownBase : Features :=
  { tvl := 500000, apy := 6.0, volume_24h := 100000, liquidity_depth := 300000,
    age_days := 90, audit_score := 0.6, governance_score := 0.6, team_score := 0.6,
    volatility := 0.3, slippage := 0.015, impermanent_loss_risk := 0.4,
    smart_contract_complexity := 0.5 }

/-- Perturbation of a score-like field in _extract_strategy_features:
additive noise, then np.clip(x, 0, 1). -/
def perturbScore (x g : ℚ) : ℚ := clip 0 1 (x + g)

/-- Perturbation of a magnitude field in _extract_strategy_features:
multiplicative noise x * (1 + g), then max(0, x). -/
def perturbMagnitude (x g : ℚ) : ℚ := max 0 (x * (1 + g))

/-- Embeds RiskAssessmentAPI._extract_strategy_features: base values
chosen by strategy type, perturbed per field exactly as in the code
(audit, governance, team and volatility, slippage, impermanent loss,
complexity get additive noise clipped to the unit interval; the
remaining magnitude fields get relative noise floored at zero). -/
def extractStrategyFeatures (strategy_address : String) (g : NoiseSample) : Features :=
  let b :=
    if identifyStrategyType strategy_address = ("lending") then lendingBase
    else if identifyStrategyType strategy_address = ("dex") then dexBase
    else if identifyStrategyType strategy_address = ("lottery") then lotteryBase
    else unknownBase
  { tvl := perturbMagnitude b.tvl g.tvl,
    apy := perturbMagnitude b.apy g.apy,
    volume_24h := perturbMagnitude b.volume_24h g.volume_24h,
    liquidity_depth := perturbMagnitude b.liquidity_depth g.liquidity_depth,
    age_days := perturbMagnitude b.age_days g.age_days,
    audit_score := perturbScore b.audit_score g.audit_score,
    governance_score := perturbScore b.governance_score g.governance_score,
    team_score := perturbScore b.team_score g.team_score,
    volatility := perturbScore b.volatility g.volatility,
    slippage := perturbScore b.slippage g.slippage,
    impermanent_loss_risk := perturbScore b.impermanent_loss_risk g.impermanent_loss_risk,
    smart_contract_complexity := perturbScore b.smart_contract_complexity g.smart_contract_complexity }

/-- Embeds the risk_thresholds dictionary of RiskAssessmentAPI.__init__. -/
structure RiskThresholds where
  low : ℚ
  medium : ℚ
  high : ℚ

/-- Threshold values as set in RiskAssessmentAPI.__init__. -/
def riskThresholds : RiskThresholds := { low := 0.3, medium := 0.6, high := 0.8 }

/-- Embeds the risk-level if-chain of get_detailed_assessment, which reads
the thresholds from the risk_thresholds dictionary. -/
def detailedRiskLevel (risk_score : ℚ) : String :=
  if risk_score < riskThresholds.low then ("LOW")
  else if risk_score < riskThresholds.medium then ("MEDIUM")
  else if risk_score < riskThresholds.high then ("HIGH")
  else ("CRITICAL")

/-- Embeds the portfolio risk-level if-chain of assess_portfolio_risk,
written with literal thresholds in the code. -/
def portfolioRiskLevel (portfolio_risk : ℚ) : String :=
  if portfolio_risk < 0.3 then ("LOW")
  else if portfolio_risk < 0.6 then ("MEDIUM")
  else if portfolio_risk < 0.8 then ("HIGH")
  else ("CRITICAL")

/-- Embeds RiskAssessmentAPI._calculate_risk_factors of risk_api.py,
term for term. -/
def calculateRiskFactors (f : Features) : RiskFactors :=
  { smart_contract_risk := f.smart_contract_complexity * 0.7 + (1 - f.audit_score) * 0.3,
    liquidity_risk := min 1 (f.slippage * 20) * 0.6 + (1 - min 1 (f.liquidity_depth / 1000000)) * 0.4,
    market_risk := f.volatility * 0.5 + f.impermanent_loss_risk * 0.5,
    operational_risk := (1 - f.governance_score) * 0.5 + (1 - f.team_score) * 0.5,
    technical_risk := f.smart_contract_complexity * 0.6 + min 1 (1 / max 1 (f.age_days / 30)) * 0.4,
    composability_risk := f.smart_contract_complexity * 0.4 + f.volatility * 0.3 + f.slippage * 10 * 0.3 }

/-- Recommendation text of the critical band, first item. -/
def recCritical1 : String := "CRITICAL: Emergency review required - consider immediate exit"

/-- Recommendation text of the critical band, second item. -/
def recCritical2 : String := "Reduce allocation to this strategy to minimal amounts"

/-- Recommendation text of the high band, first item. -/
def recHigh1 : String := "HIGH RISK: Limit allocation to maximum 20% of portfolio"

/-- Recommendation text of the high band, second item. -/
def recHigh2 : String := "Increase monitoring frequency to daily checks"

/-- Recommendation text of the medium band, first item. -/
def recMedium1 : String := "MEDIUM RISK: Limit allocation to maximum 40% of portfolio"

/-- Recommendation text of the medium band, second item. -/
def recMedium2 : String := "Monitor weekly for risk changes"

/-- Recommendation text of the low band, first item. -/
def recLow1 : String := "LOW RISK: Strategy suitable for higher allocations"

/-- Recommendation text of the low band, second item. -/
def recLow2 : String := "Continue normal monitoring schedule"

/-- Recommendation text of the liquidity-factor rule. -/
def recLiquidity : String := "High liquidity risk detected - avoid large position sizes"

/-- Recommendation text of the smart-contract-factor rule. -/
def recSmartContract : String := "Smart contract risk elevated - verify latest audit reports"

/-- Recommendation text of the market-factor rule. -/
def recMarket : String := "High market risk - consider hedging positions"

/-- Recommendation text of the operational-factor rule. -/
def recOperational : String := "Operational concerns - review team and governance structures"

/-- Recommendation text of the dex strategy-type rule. -/
def recDexIL : String := "DEX strategy with high market risk - monitor impermanent loss closely"

/-- Recommendation text of the lending strategy-type rule. -/
def recLendingUtil : String := "Lending strategy with liquidity concerns - check utilization rates"

/-- Recommendation text prepended by the anomaly check of
get_detailed_assessment. -/
def recAnomaly : String := "ANOMALY DETECTED: Strategy exhibits unusual risk patterns"

/-- Fallback recommendation of the except-branch of get_detailed_assessment. -/
def recFallback : String := "Unable to assess - manual review required"

/-- Embeds RiskAssessmentAPI._generate_recommendations: a severity band
contributing two items, four factor rules, two strategy-type rules, then
truncation to the first six items. -/
def generateRecommendations (risk_score : ℚ) (risk_factors : RiskFactors)
    (strategy_type : String) : List String :=
  let base :=
    if risk_score > 0.8 then [recCritical1, recCritical2]
    else if risk_score > 0.6 then [recHigh1, recHigh2]
    else if risk_score > 0.3 then [recMedium1, recMedium2]
    else [recLow1, recLow2]
  let recs := base
    ++ (if risk_factors.liquidity_risk > 0.7 then [recLiquidity] else [])
    ++ (if risk_factors.smart_contract_risk > 0.6 then [recSmartContract] else [])
    ++ (if risk_factors.market_risk > 0.7 then [recMarket] else [])
    ++ (if risk_factors.operational_risk > 0.6 then [recOperational] else [])
    ++ (if strategy_type = ("dex") ∧ risk_factors.market_risk > 0.5 then [recDexIL] else [])
    ++ (if strategy_type = ("lending") ∧ risk_factors.liquidity_risk > 0.5 then [recLendingUtil] else [])
  recs.take 6

/-- Embeds RiskAssessmentAPI.assess_strategy_risk.  The oracle argument
is the outcome of the try-block up to and including model.predict on the
scaled feature vector: Except.ok carries the raw model prediction,
Except.error models any exception raised inside the try-block. -/
def assessStrategyRisk (strategy_address : String) (modelOutcome : Except String ℚ) : ℚ :=
  match modelOutcome with
  | Except.ok prediction => clip 0 1 prediction
  | Except.error _ => 0.5

/-- Oracle outcomes of the success path of get_detailed_assessment: the
Gaussian draws of feature extraction, the raw model prediction, the
variance of the scaled feature vector, and the anomaly-detector flag. -/
structure DetailedOk where
  noise : NoiseSample
  prediction : ℚ
  featureVariance : ℚ
  anomalyFlagged : Bool

/-- Embeds RiskAssessmentAPI.get_detailed_assessment.  Except.ok carries
the oracle outcomes of the try-block; Except.error models an exception
raised by any internal step, answered by the fallback assessment of the
except-branch. -/
def getDetailedAssessment (strategy_address : String) (now : ℚ)
    (step : Except String DetailedOk) : RiskAssessment :=
  match step with
  | Except.ok o =>
      let features := extractStrategyFeatures strategy_address o.noise
      let risk_score := clip 0 1 o.prediction
      let confidence := 1 - min 0.4 o.featureVariance
      let risk_level := detailedRiskLevel risk_score
      let risk_factors := calculateRiskFactors features
      let strategy_type := identifyStrategyType strategy_address
      let recommendations := generateRecommendations risk_score risk_factors strategy_type
      let recommendations :=
        if o.anomalyFlagged then recAnomaly :: recommendations else recommendations
      let confidence := if o.anomalyFlagged then confidence * 0.8 else confidence
      { strategy_address := strategy_address,
        risk_score := risk_score,
        risk_level := risk_level,
        confidence := confidence,
        risk_factors := risk_factors,
        recommendations := recommendations,
        timestamp := now,
        model_version := ("1.0-synthetic") }
  | Except.error _ =>
      { strategy_address := strategy_address,
        risk_score := 0.5,
        risk_level := ("MEDIUM"),
        confidence := 0.3,
        risk_factors := { smart_contract_risk := 0.5, liquidity_risk := 0.5,
                          market_risk := 0.5, operational_risk := 0.5,
                          technical_risk := 0.5, composability_risk := 0.5 },
        recommendations := [recFallback],
        timestamp := now,
        model_version := ("1.0-fallback") }

/-- Embeds one entry of the strategy_assessments list built by
assess_portfolio_risk. -/
structure StrategyAssessmentRow where
  address : String
  allocation : ℚ
  risk_score : ℚ
  risk_level : String
  confidence : ℚ

/-- Embeds the result dictionary of assess_portfolio_risk (the
recommendations and timestamp entries, presentation-only, are omitted). -/
structure PortfolioResult where
  portfolio_risk_score : ℚ
  portfolio_risk_level : String
  diversification_benefit : ℚ
  num_strategies : Nat
  strategy_assessments : List StrategyAssessmentRow

/-- Embeds RiskAssessmentAPI.assess_portfolio_risk.  The assess argument
is the per-address outcome of get_detailed_assessment, the only use the
code makes of self there.  The two ValueError raises of the code are the two
Except.error cases; past the checks the code is loop arithmetic over
zip(strategy_addresses, allocations). -/
def assessPortfolioRisk (assess : String → RiskAssessment)
    (strategy_addresses : List String) (allocations : List ℚ) :
    Except String PortfolioResult :=
  if strategy_addresses.length ≠ allocations.length then
    Except.error ("Strategy addresses and allocations must have same length")
  else if |allocations.sum - 1| > 0.01 then
    Except.error ("Allocations must sum to 1.0")
  else
    let pairs := strategy_addresses.zip allocations
    let rows := pairs.map (fun p =>
      { address := p.1, allocation := p.2,
        risk_score := (assess p.1).risk_score,
        risk_level := (assess p.1).risk_level,
        confidence := (assess p.1).confidence : StrategyAssessmentRow })
    let portfolio_risk :=
      pairs.foldl (fun acc p => acc + (assess p.1).risk_score * p.2) 0
    let num_strategies := strategy_addresses.length
    let diversification_benefit := min 0.2 (((num_strategies : ℚ) - 1) * 0.05)
    let portfolio_risk := max 0 (portfolio_risk - diversification_benefit)
    Except.ok
      { portfolio_risk_score := portfolio_risk,
        portfolio_risk_level := portfolioRiskLevel portfolio_risk,
        diversification_benefit := diversification_benefit,
        num_strategies := num_strategies,
        strategy_assessments := rows }

/-- Embeds the strategy_scores loop of rebalance_strategy_allocations
(enhanced_etherlink_agent.py): inverse risk score, with the
high-volatility tilt for lottery and pancake strategies. -/
def strategyScores (risk_scores : List (String × ℚ)) (market_volatility : ℚ) :
    List (String × ℚ) :=
  risk_scores.map (fun p =>
    let risk_adjusted_score := 1 - p.2
    let risk_adjusted_score :=
      if market_volatility > 0.7 then
        if strContains (lowerChars p.1) ("lottery") then risk_adjusted_score * 1.2
        else if strContains (lowerChars p.1) ("pancake") then risk_adjusted_score * 0.8
        else risk_adjusted_score
      else risk_adjusted_score
    (p.1, risk_adjusted_score))

/-- Embeds the first normalization of rebalance_strategy_allocations:
score / total * 100 when the total is positive, else the constant 33.33. -/
def normalizePercentages (scored : List (String × ℚ)) : List (String × ℚ) :=
  let total_score := (scored.map Prod.snd).sum
  scored.map (fun p => (p.1, if total_score > 0 then p.2 / total_score * 100 else 33.33))

/-- Embeds the maximum-allocation clamp of rebalance_strategy_allocations. -/
def capPercentages (max_allocation_pct : ℚ) (pcts : List (String × ℚ)) :
    List (String × ℚ) :=
  pcts.map (fun p => (p.1, if p.2 > max_allocation_pct then max_allocation_pct else p.2))

/-- Embeds the final renormalization of rebalance_strategy_allocations,
applied to every entry when the post-clamp total is positive. -/
def renormalizePercentages (pcts : List (String × ℚ)) : List (String × ℚ) :=
  let total_optimal := (pcts.map Prod.snd).sum
  if total_optimal > 0 then
    pcts.map (fun p => (p.1, p.2 / total_optimal * 100))
  else pcts

/-- The allocation-policy portion of rebalance_strategy_allocations:
score, normalize, clamp, renormalize, in the order of the code. -/
def rebalanceOptimalPercentages (risk_scores : List (String × ℚ))
    (market_volatility max_allocation_pct : ℚ) : List (String × ℚ) :=
  renormalizePercentages
    (capPercentages max_allocation_pct
      (normalizePercentages (strategyScores risk_scores market_volatility)))

lemma clip01_nonneg (x : ℚ) : 0 ≤ clip 0 1 x :=
  le_min (by norm_num) (le_max_left 0 x)

lemma clip01_le_one (x : ℚ) : clip 0 1 x ≤ 1 :=
  min_le_left 1 (max 0 x)

lemma perturbScore_nonneg (x g : ℚ) : 0 ≤ perturbScore x g :=
  clip01_nonneg (x + g)

lemma perturbScore_le_one (x g : ℚ) : perturbScore x g ≤ 1 :=
  clip01_le_one (x + g)

lemma perturbMagnitude_nonneg (x g : ℚ) : 0 ≤ perturbMagnitude x g :=
  le_max_left 0 (x * (1 + g))

lemma foldl_add_map {α : Type} (f : α → ℚ) (l : List α) (a : ℚ) :
    l.foldl (fun acc x => acc + f x) a = a + (l.map f).sum := by
  induction l generalizing a with
  | nil => simp
  | cons x t ih => simp only [List.foldl_cons, List.map_cons, List.sum_cons, ih]; ring

lemma sum_map_const {α : Type} (l : List α) (c : ℚ) :
    (l.map (fun _ => c)).sum = (l.length : ℚ) * c := by
  induction l with
  | nil => simp
  | cons a t ih => simp only [List.map_cons, List.sum_cons, List.length_cons, ih]; push_cast; ring

/-- Claim C1: for every identifier string, get_detailed_assessment is total,
and when any internal step of the try-block throws (the Except.error case of
the pipeline oracle) it returns the fully populated fallback RiskAssessment:
risk score 0.5, level MEDIUM, confidence 0.3, all six risk factors 0.5, and
exactly the single manual-review recommendation. -/
theorem getDetailedAssessment_fallback (strategy_address : String) (now : ℚ) (e : String) :
    (getDetailedAssessment strategy_address now (Except.error e)).risk_score = 0.5 ∧
    (getDetailedAssessment strategy_address now (Except.error e)).risk_level = ("MEDIUM") ∧
    (getDetailedAssessment strategy_address now (Except.error e)).confidence = 0.3 ∧
    (getDetailedAssessment strategy_address now (Except.error e)).risk_factors =
      { smart_contract_risk := 0.5, liquidity_risk := 0.5, market_risk := 0.5,
        operational_risk := 0.5, technical_risk := 0.5, composability_risk := 0.5 } ∧
    (getDetailedAssessment strategy_address now (Except.error e)).recommendations = [recFallback] ∧
    (getDetailedAssessment strategy_address now (Except.error e)).strategy_address = strategy_address :=
  ⟨rfl, rfl, rfl, rfl, rfl, rfl⟩

/-- Claim C2: the quick scoring path assess_strategy_risk always returns a
value in the unit interval; on a successful model prediction it returns the
prediction clipped to that interval, and on any internal exception it
returns exactly 0.5. -/
theorem assessStrategyRisk_spec (strategy_address : String) (modelOutcome : Except String ℚ) :
    (0 ≤ assessStrategyRisk strategy_address modelOutcome ∧
      assessStrategyRisk strategy_address modelOutcome ≤ 1) ∧
    (∀ q, modelOutcome = Except.ok q →
      assessStrategyRisk strategy_address modelOutcome = clip 0 1 q) ∧
    (∀ err, modelOutcome = Except.error err →
      assessStrategyRisk strategy_address modelOutcome = 0.5) := by
  cases modelOutcome with
  | ok q =>
      refine ⟨⟨clip01_nonneg q, clip01_le_one q⟩, ?_, ?_⟩
      · intro q' hq'
        cases hq'
        rfl
      · intro err herr
        cases herr
  | error e =>
      refine ⟨⟨by norm_num [assessStrategyRisk], by norm_num [assessStrategyRisk]⟩, ?_, ?_⟩
      · intro q' hq'
        cases hq'
      · intro err herr
        rfl

/-- Witness for claim C2 at concrete inputs: a prediction of 2 is clipped
to 1, and an exception outcome yields exactly 0.5. -/
theorem assessStrategyRisk_spec_witness :
    assessStrategyRisk ("a") (Except.ok 2) = 1 ∧
    assessStrategyRisk ("a") (Except.error ("boom")) = 0.5 := by
  constructor
  · have h := (assessStrategyRisk_spec ("a") (Except.ok 2)).2.1 2 rfl
    rw [h]
    norm_num [clip, max_def, min_def]
  · exact (assessStrategyRisk_spec ("a") (Except.error ("boom"))).2.2 ("boom") rfl

/-- Claim C7: the six RiskFactors sub-scores computed by
_calculate_risk_factors agree, for every feature mapping, with the fixed
linear formulas of the specification. -/
theorem calculateRiskFactors_formulas (f : Features) :
    (calculateRiskFactors f).smart_contract_risk
        = 0.7 * f.smart_contract_complexity + 0.3 * (1 - f.audit_score) ∧
    (calculateRiskFactors f).liquidity_risk
        = 0.6 * min 1 (f.slippage * 20) + 0.4 * (1 - min 1 (f.liquidity_depth / 1000000)) ∧
    (calculateRiskFactors f).market_risk
        = 0.5 * f.volatility + 0.5 * f.impermanent_loss_risk ∧
    (calculateRiskFactors f).operational_risk
        = 0.5 * (1 - f.governance_score) + 0.5 * (1 - f.team_score) ∧
    (calculateRiskFactors f).technical_risk
        = 0.6 * f.smart_contract_complexity + 0.4 * min 1 (1 / max 1 (f.age_days / 30)) ∧
    (calculateRiskFactors f).composability_risk
        = 0.4 * f.smart_contract_complexity + 0.3 * f.volatility + 3.0 * f.slippage := by
  refine ⟨?_, ?_, ?_, ?_, ?_, ?_⟩ <;> simp only [calculateRiskFactors] <;> ring

/-- Claim C8, amended: every feature vector produced by the extractor has
audit, governance and team scores and volatility, slippage, impermanent
loss and complexity in the unit interval, and nonnegative magnitude fields
(tvl, apy, volume, liquidity depth, age); the extractor enforces no upper
bound of 50 on apy and no upper bound of 0.1 on slippage. -/
theorem extractStrategyFeatures_ranges (strategy_address : String) (g : NoiseSample) :
    (0 ≤ (extractStrategyFeatures strategy_address g).audit_score ∧
      (extractStrategyFeatures strategy_address g).audit_score ≤ 1) ∧
    (0 ≤ (extractStrategyFeatures strategy_address g).governance_score ∧
      (extractStrategyFeatures strategy_address g).governance_score ≤ 1) ∧
    (0 ≤ (extractStrategyFeatures strategy_address g).team_score ∧
      (extractStrategyFeatures strategy_address g).team_score ≤ 1) ∧
    (0 ≤ (extractStrategyFeatures strategy_address g).volatility ∧
      (extractStrategyFeatures strategy_address g).volatility ≤ 1) ∧
    (0 ≤ (extractStrategyFeatures strategy_address g).slippage ∧
      (extractStrategyFeatures strategy_address g).slippage ≤ 1) ∧
    (0 ≤ (extractStrategyFeatures strategy_address g).impermanent_loss_risk ∧
      (extractStrategyFeatures strategy_address g).impermanent_loss_risk ≤ 1) ∧
    (0 ≤ (extractStrategyFeatures strategy_address g).smart_contract_complexity ∧
      (extractStrategyFeatures strategy_address g).smart_contract_complexity ≤ 1) ∧
    0 ≤ (extractStrategyFeatures strategy_address g).tvl ∧
    0 ≤ (extractStrategyFeatures strategy_address g).apy ∧
    0 ≤ (extractStrategyFeatures strategy_address g).volume_24h ∧
    0 ≤ (extractStrategyFeatures strategy_address g).liquidity_depth ∧
    0 ≤ (extractStrategyFeatures strategy_address g).age_days :=
  ⟨⟨perturbScore_nonneg _ _, perturbScore_le_one _ _⟩,
   ⟨perturbScore_nonneg _ _, perturbScore_le_one _ _⟩,
   ⟨perturbScore_nonneg _ _, perturbScore_le_one _ _⟩,
   ⟨perturbScore_nonneg _ _, perturbScore_le_one _ _⟩,
   ⟨perturbScore_nonneg _ _, perturbScore_le_one _ _⟩,
   ⟨perturbScore_nonneg _ _, perturbScore_le_one _ _⟩,
   ⟨perturbScore_nonneg _ _, perturbScore_le_one _ _⟩,
   perturbMagnitude_nonneg _ _, perturbMagnitude_nonneg _ _,
   perturbMagnitude_nonneg _ _, perturbMagnitude_nonneg _ _,
   perturbMagnitude_nonneg _ _⟩

/-- A concrete noise draw under which the extractor leaves apy above 50
and slippage above 0.1. -/
def cexNoiseRanges : NoiseSample :=
  { tvl := 0, apy := 10, volume_24h := 0, liquidity_depth := 0, age_days := 0,
    audit_score := 0, governance_score := 0, team_score := 0, volatility := 0,
    slippage := 0.5, impermanent_loss_risk := 0, smart_contract_complexity := 0 }

/-- Counterexample to claim C8 as stated: at the unknown-type identifier
and the concrete noise draw above, the extracted apy is 66, above the
claimed bound 50, and the extracted slippage is 0.515, above the claimed
bound 0.1. -/
theorem extractStrategyFeatures_range_counterexample :
    50 < (extractStrategyFeatures ("zzz") cexNoiseRanges).apy ∧
    0.1 < (extractStrategyFeatures ("zzz") cexNoiseRanges).slippage := by
  have h1 : identifyStrategyType ("zzz") ≠ ("lending") := by decide
  have h2 : identifyStrategyType ("zzz") ≠ ("dex") := by decide
  have h3 : identifyStrategyType ("zzz") ≠ ("lottery") := by decide
  simp only [extractStrategyFeatures, cexNoiseRanges, if_neg h1, if_neg h2, if_neg h3]
  norm_num [perturbMagnitude, perturbScore, clip, unknownBase, max_def, min_def]

/-- Claim C3: assess_portfolio_risk raises exactly when the lengths differ
or the allocations sum is further than 0.01 from 1, and in that case the
result does not depend on the per-strategy assessor at all (no assessment
is performed, nothing is renormalized on behalf of the caller). -/
theorem assessPortfolioRisk_validation (assess : String → RiskAssessment)
    (strategy_addresses : List String) (allocations : List ℚ) :
    ((∃ e, assessPortfolioRisk assess strategy_addresses allocations = Except.error e) ↔
      (strategy_addresses.length ≠ allocations.length ∨ |allocations.sum - 1| > 0.01)) ∧
    (∀ assess₂, (strategy_addresses.length ≠ allocations.length ∨ |allocations.sum - 1| > 0.01) →
      assessPortfolioRisk assess strategy_addresses allocations
        = assessPortfolioRisk assess₂ strategy_addresses allocations) := by
  unfold assessPortfolioRisk
  by_cases hl : strategy_addresses.length = allocations.length
  · by_cases hs : |allocations.sum - 1| > 0.01
    · rw [if_neg (not_not_intro hl), if_pos hs]
      exact ⟨⟨fun _ => Or.inr hs, fun _ => ⟨_, rfl⟩⟩,
        fun a2 _ => by rw [if_neg (not_not_intro hl), if_pos hs]⟩
    · rw [if_neg (not_not_intro hl), if_neg hs]
      constructor
      · constructor
        · rintro ⟨e, he⟩
          exact Except.noConfusion he
        · rintro (h | h)
          · exact absurd hl h
          · exact absurd h hs
      · intro a2 h
        rcases h with h | h
        · exact absurd hl h
        · exact absurd h hs
  · rw [if_pos hl]
    exact ⟨⟨fun _ => Or.inl hl, fun _ => ⟨_, rfl⟩⟩, fun a2 _ => by rw [if_pos hl]⟩

/-- A fixed assessment record used to build concrete assessor oracles. -/
def cexAssessment (score : ℚ) : RiskAssessment :=
  { strategy_address := ("x"), risk_score := score, risk_level := ("LOW"),
    confidence := 1,
    risk_factors := { smart_contract_risk := 0, liquidity_risk := 0, market_risk := 0,
                      operational_risk := 0, technical_risk := 0, composability_risk := 0 },
    recommendations := [], timestamp := 0, model_version := ("1.0-synthetic") }

/-- A concrete assessor scoring strategy a at 0.8 and every other at 0.2. -/
def cexAssess : String → RiskAssessment :=
  fun a => if a = ("a") then cexAssessment 0.8 else cexAssessment 0.2

/-- Witness for claim C3 at the concrete input of the specification: the
portfolio call over two strategies with allocations 0.5 and 0.6 (sum 1.1)
returns the validation error. -/
theorem assessPortfolioRisk_validation_witness :
    ∃ e, assessPortfolioRisk cexAssess [("a"), ("b")] [0.5, 0.6] = Except.error e := by
  refine (assessPortfolioRisk_validation cexAssess [("a"), ("b")] [0.5, 0.6]).1.mpr ?_
  right
  have hsum : ([0.5, 0.6] : List ℚ).sum - 1 = 0.1 := by
    simp only [List.sum_cons, List.sum_nil]
    norm_num
  rw [hsum, abs_of_nonneg (by norm_num)]
  norm_num

/-- Claim C4: under the portfolio preconditions, the returned
diversification benefit is min(0.2, (n - 1) * 0.05) and the returned
portfolio risk score is the allocation-weighted sum of the per-strategy
risk scores, minus that benefit, floored at zero. -/
theorem assessPortfolioRisk_formula (assess : String → RiskAssessment)
    (strategy_addresses : List String) (allocations : List ℚ)
    (hlen : strategy_addresses.length = allocations.length)
    (hsum : |allocations.sum - 1| ≤ 0.01) :
    ∃ r, assessPortfolioRisk assess strategy_addresses allocations = Except.ok r ∧
      r.diversification_benefit = min 0.2 (((strategy_addresses.length : ℚ) - 1) * 0.05) ∧
      r.portfolio_risk_score =
        max 0 (((strategy_addresses.zip allocations).map
            (fun p => (assess p.1).risk_score * p.2)).sum
          - min 0.2 (((strategy_addresses.length : ℚ) - 1) * 0.05)) := by
  unfold assessPortfolioRisk
  rw [if_neg (not_not_intro hlen), if_neg (not_lt.mpr hsum)]
  refine ⟨_, rfl, rfl, ?_⟩
  simp only [foldl_add_map, zero_add]

/-- Witness for claim C4 at the concrete input of the specification: two
strategies scored 0.8 and 0.2 with equal halves allocation yield portfolio
risk 0.45 and diversification benefit 0.05. -/
theorem assessPortfolioRisk_formula_witness :
    ∃ r, assessPortfolioRisk cexAssess [("a"), ("b")] [0.5, 0.5] = Except.ok r ∧
      r.portfolio_risk_score = 0.45 ∧ r.diversification_benefit = 0.05 := by
  have ha : cexAssess ("a") = cexAssessment 0.8 := by
    unfold cexAssess
    rw [if_pos rfl]
  have hb : cexAssess ("b") = cexAssessment 0.2 := by
    unfold cexAssess
    rw [if_neg (by decide)]
  obtain ⟨r, hr, hben, hscore⟩ :=
    assessPortfolioRisk_formula cexAssess [("a"), ("b")] [0.5, 0.5] rfl
      (by simp only [List.sum_cons, List.sum_nil]; norm_num)
  refine ⟨r, hr, ?_, ?_⟩
  · rw [hscore]
    simp only [List.zip_cons_cons, List.zip_nil_right, List.map_cons, List.map_nil,
      List.sum_cons, List.sum_nil, ha, hb, cexAssessment, List.length_cons, List.length_nil]
    norm_num [max_def, min_def]
  · rw [hben]
    simp only [List.length_cons, List.length_nil]
    norm_num [min_def]

/-- Claim C6: both risk-level classifiers (the threshold-dictionary chain
of get_detailed_assessment and the literal chain of assess_portfolio_risk)
agree, classify LOW exactly below 0.3, MEDIUM on [0.3, 0.6), HIGH on
[0.6, 0.8), CRITICAL at and above 0.8, and map the boundary scores 0.3,
0.6, 0.8 to MEDIUM, HIGH, CRITICAL. -/
theorem riskLevel_thresholds (s : ℚ) :
    detailedRiskLevel s = portfolioRiskLevel s ∧
    (detailedRiskLevel s = ("LOW") ↔ s < 0.3) ∧
    (detailedRiskLevel s = ("MEDIUM") ↔ 0.3 ≤ s ∧ s < 0.6) ∧
    (detailedRiskLevel s = ("HIGH") ↔ 0.6 ≤ s ∧ s < 0.8) ∧
    (detailedRiskLevel s = ("CRITICAL") ↔ 0.8 ≤ s) ∧
    detailedRiskLevel (0.3 : ℚ) = ("MEDIUM") ∧
    detailedRiskLevel (0.6 : ℚ) = ("HIGH") ∧
    detailedRiskLevel (0.8 : ℚ) = ("CRITICAL") := by
  have hML : ("MEDIUM" : String) ≠ ("LOW") := by decide
  have hHL : ("HIGH" : String) ≠ ("LOW") := by decide
  have hCL : ("CRITICAL" : String) ≠ ("LOW") := by decide
  have hLM : ("LOW" : String) ≠ ("MEDIUM") := by decide
  have hHM : ("HIGH" : String) ≠ ("MEDIUM") := by decide
  have hCM : ("CRITICAL" : String) ≠ ("MEDIUM") := by decide
  have hLH : ("LOW" : String) ≠ ("HIGH") := by decide
  have hMH : ("MEDIUM" : String) ≠ ("HIGH") := by decide
  have hCH : ("CRITICAL" : String) ≠ ("HIGH") := by decide
  have hLC : ("LOW" : String) ≠ ("CRITICAL") := by decide
  have hMC : ("MEDIUM" : String) ≠ ("CRITICAL") := by decide
  have hHC : ("HIGH" : String) ≠ ("CRITICAL") := by decide
  have hlow : riskThresholds.low = 0.3 := rfl
  have hmed : riskThresholds.medium = 0.6 := rfl
  have hhigh : riskThresholds.high = 0.8 := rfl
  refine ⟨?_, ?_, ?_, ?_, ?_, ?_, ?_, ?_⟩
  · simp only [detailedRiskLevel, portfolioRiskLevel, hlow, hmed, hhigh]
  · simp only [detailedRiskLevel, hlow, hmed, hhigh]
    split_ifs with h1 h2 h3
    · simp [h1]
    · simp only [hML, false_iff]
      exact fun h => h1 h
    · simp only [hHL, false_iff]
      exact fun h => h1 h
    · simp only [hCL, false_iff]
      exact fun h => h1 h
  · simp only [detailedRiskLevel, hlow, hmed, hhigh]
    split_ifs with h1 h2 h3
    · simp only [hLM, false_iff]
      rintro ⟨ha, _⟩
      exact absurd h1 (not_lt.mpr ha)
    · simp only [eq_self_iff_true, true_iff]
      exact ⟨not_lt.mp h1, h2⟩
    · simp only [hHM, false_iff]
      rintro ⟨_, hb⟩
      exact h2 hb
    · simp only [hCM, false_iff]
      rintro ⟨_, hb⟩
      exact h2 hb
  · simp only [detailedRiskLevel, hlow, hmed, hhigh]
    split_ifs with h1 h2 h3
    · simp only [hLH, false_iff]
      rintro ⟨ha, _⟩
      exact absurd h1 (not_lt.mpr (le_trans (by norm_num) ha))
    · simp only [hMH, false_iff]
      rintro ⟨ha, _⟩
      exact absurd h2 (not_lt.mpr ha)
    · simp only [eq_self_iff_true, true_iff]
      exact ⟨not_lt.mp h2, h3⟩
    · simp only [hCH, false_iff]
      rintro ⟨_, hb⟩
      exact h3 hb
  · simp only [detailedRiskLevel, hlow, hmed, hhigh]
    split_ifs with h1 h2 h3
    · simp only [hLC, false_iff]
      intro ha
      exact absurd h1 (not_lt.mpr (le_trans (by norm_num) ha))
    · simp only [hMC, false_iff]
      intro ha
      exact absurd h2 (not_lt.mpr (le_trans (by norm_num) ha))
    · simp only [hHC, false_iff]
      intro ha
      exact absurd h3 (not_lt.mpr ha)
    · simp only [eq_self_iff_true, true_iff]
      exact not_lt.mp h3
  · norm_num [detailedRiskLevel, riskThresholds]
  · norm_num [detailedRiskLevel, riskThresholds]
  · norm_num [detailedRiskLevel, riskThresholds]

lemma generateRecommendations_length_le (risk_score : ℚ) (rf : RiskFactors) (st : String) :
    (generateRecommendations risk_score rf st).length ≤ 6 := by
  simp only [generateRecommendations]
  rw [List.length_take]
  exact min_le_left _ _

/-- Claim C9, amended: every assessment carries at most 7 recommendations;
the rule-cascade output is truncated to 6 before the anomaly message is
prepended, so without the anomaly prepend (and in the fallback case) the
bound 6 of the claim holds, while an anomaly-flagged assessment may carry
7. -/
theorem getDetailedAssessment_recommendations_length (strategy_address : String) (now : ℚ)
    (step : Except String DetailedOk) :
    (getDetailedAssessment strategy_address now step).recommendations.length ≤ 7 ∧
    (∀ o, step = Except.ok o → o.anomalyFlagged = false →
      (getDetailedAssessment strategy_address now step).recommendations.length ≤ 6) := by
  cases step with
  | error e =>
      constructor
      · simp [getDetailedAssessment]
      · intro o ho
        exact Except.noConfusion ho
  | ok o =>
      have hbase := generateRecommendations_length_le (clip 0 1 o.prediction)
        (calculateRiskFactors (extractStrategyFeatures strategy_address o.noise))
        (identifyStrategyType strategy_address)
      constructor
      · cases hb : o.anomalyFlagged with
        | false =>
            simp only [getDetailedAssessment, hb, Bool.false_eq_true, if_false]
            exact le_trans hbase (by norm_num)
        | true =>
            simp only [getDetailedAssessment, hb, if_true, List.length_cons]
            omega
      · intro o' ho hflag
        injection ho with ho'
        subst ho'
        simp only [getDetailedAssessment, hflag, Bool.false_eq_true, if_false]
        exact hbase

/-- A benign oracle outcome with the anomaly flag off. -/
def cexOkBenign : DetailedOk :=
  { noise := cexNoiseRanges, prediction := 0.2, featureVariance := 0, anomalyFlagged := false }

/-- Witness for claim C9 (amended part with a hypothesis): at a concrete
non-anomalous outcome the assessment carries at most 6 recommendations. -/
theorem getDetailedAssessment_recommendations_length_witness :
    (getDetailedAssessment ("zzz") 0 (Except.ok cexOkBenign)).recommendations.length ≤ 6 :=
  (getDetailedAssessment_recommendations_length ("zzz") 0 (Except.ok cexOkBenign)).2
    cexOkBenign rfl rfl

/-- A noise draw driving every factor rule of the recommendation cascade
above its threshold (zero scores, saturated volatility, slippage,
impermanent loss and complexity, liquidity depth knocked to zero). -/
def cexNoiseSevere : NoiseSample :=
  { tvl := 0, apy := 0, volume_24h := 0, liquidity_depth := -1, age_days := 0,
    audit_score := -0.6, governance_score := -0.6, team_score := -0.6, volatility := 0.7,
    slippage := 0.985, impermanent_loss_risk := 0.6, smart_contract_complexity := 0.5 }

/-- An oracle outcome with a critical prediction and the anomaly flag on. -/
def cexDetailedOk : DetailedOk :=
  { noise := cexNoiseSevere, prediction := 0.9, featureVariance := 0, anomalyFlagged := true }

/-- Counterexample to claim C9 as stated: at this concrete input the
severity band contributes 2 items and all four factor rules fire, the
cascade is truncated to 6, and the anomaly prepend then makes 7
recommendations, above the claimed bound of 6. -/
theorem getDetailedAssessment_recommendations_counterexample :
    (getDetailedAssessment ("zzz") 0 (Except.ok cexDetailedOk)).recommendations.length = 7 := by
  have h1 : identifyStrategyType ("zzz") ≠ ("lending") := by decide
  have h2 : identifyStrategyType ("zzz") ≠ ("dex") := by decide
  have h3 : identifyStrategyType ("zzz") ≠ ("lottery") := by decide
  norm_num [getDetailedAssessment, cexDetailedOk, cexNoiseSevere, extractStrategyFeatures,
    h1, h2, h3, unknownBase, perturbScore, perturbMagnitude, clip,
    calculateRiskFactors, generateRecommendations, max_def, min_def]

/-- Claim C5, amended: immediately after the clamp stage no strategy
exceeds the cap, and whenever the post-clamp total is positive the final
renormalized percentages sum to exactly 100; the final renormalization,
however, rescales clamped entries too and can push them back above the
cap (see the counterexample). -/
theorem rebalance_cap_and_sum (risk_scores : List (String × ℚ)) (vol cap : ℚ)
    (hpos : 0 < ((capPercentages cap
        (normalizePercentages (strategyScores risk_scores vol))).map Prod.snd).sum) :
    (∀ p ∈ capPercentages cap (normalizePercentages (strategyScores risk_scores vol)),
      p.2 ≤ cap) ∧
    ((rebalanceOptimalPercentages risk_scores vol cap).map Prod.snd).sum = 100 := by
  constructor
  · intro p hp
    simp only [capPercentages, List.mem_map] at hp
    obtain ⟨q, _, hpq⟩ := hp
    subst hpq
    dsimp only
    split_ifs with h
    · exact le_rfl
    · exact not_lt.mp h
  · unfold rebalanceOptimalPercentages renormalizePercentages
    rw [if_pos hpos]
    set L := capPercentages cap (normalizePercentages (strategyScores risk_scores vol)) with hL
    set T := (L.map Prod.snd).sum with hT
    have hcomp : ((L.map (fun p : String × ℚ => (p.1, p.2 / T * 100))).map Prod.snd)
        = L.map (fun p => Prod.snd p * (100 / T)) := by
      rw [List.map_map]
      exact List.map_congr_left (fun p _ => by dsimp only [Function.comp]; ring)
    rw [hcomp, List.sum_map_mul_right, ← hT]
    have hT0 : T ≠ 0 := ne_of_gt hpos
    field_simp

/-- Concrete risk scores: one safe strategy, two nearly maximal ones. -/
def cexRebalanceScores : List (String × ℚ) := [(("a"), 0), (("b"), 0.95), (("c"), 0.95)]

/-- Witness for claim C5 (amended): at the concrete input the clamp-stage
bound holds and the renormalized output sums to 100. -/
theorem rebalance_cap_and_sum_witness :
    (∀ p ∈ capPercentages 40 (normalizePercentages (strategyScores cexRebalanceScores 0.5)),
      p.2 ≤ 40) ∧
    ((rebalanceOptimalPercentages cexRebalanceScores 0.5 40).map Prod.snd).sum = 100 := by
  apply rebalance_cap_and_sum
  norm_num [cexRebalanceScores, strategyScores, normalizePercentages, capPercentages,
    List.map_cons, List.map_nil, List.sum_cons, List.sum_nil, max_def, min_def]

/-- Counterexample to claim C5 as stated: with cap 40, risk scores 0,
0.95, 0.95 and no volatility tilt, the final renormalization lifts the
clamped strategy back to 2200/27 (about 81.5), above the claimed cap of
40. -/
theorem rebalance_cap_counterexample :
    rebalanceOptimalPercentages cexRebalanceScores 0.5 40
      = [(("a"), 2200/27), (("b"), 250/27), (("c"), 250/27)] ∧
    (40 : ℚ) < 2200/27 := by
  constructor
  · norm_num [cexRebalanceScores, rebalanceOptimalPercentages, strategyScores,
      normalizePercentages, capPercentages, renormalizePercentages,
      List.map_cons, List.map_nil, List.sum_cons, List.sum_nil]
  · norm_num

/-- Claim C10: when every strategy has risk score 1, every risk-adjusted
score is 0, so each pre-clamp optimal percentage is the constant 33.33,
and (for any positive cap) the final renormalization yields the equal
split 100/n per strategy. -/
theorem rebalance_equal_split_when_all_max_risk (names : List String) (vol cap : ℚ)
    (hne : names ≠ []) (hcap : 0 < cap) :
    normalizePercentages (strategyScores (names.map (fun nm => (nm, (1 : ℚ)))) vol)
      = names.map (fun nm => (nm, (33.33 : ℚ))) ∧
    rebalanceOptimalPercentages (names.map (fun nm => (nm, (1 : ℚ)))) vol cap
      = names.map (fun nm => (nm, 100 / (names.length : ℚ))) := by
  have hscores : strategyScores (names.map (fun nm => (nm, (1 : ℚ)))) vol
      = names.map (fun nm => (nm, (0 : ℚ))) := by
    unfold strategyScores
    rw [List.map_map]
    refine List.map_congr_left (fun nm _ => ?_)
    dsimp only [Function.comp]
    simp only [Prod.mk.injEq, true_and]
    split_ifs <;> norm_num
  have hnorm : normalizePercentages (names.map (fun nm => (nm, (0 : ℚ))))
      = names.map (fun nm => (nm, (33.33 : ℚ))) := by
    have htot : ((names.map (fun nm => (nm, (0 : ℚ)))).map Prod.snd).sum = 0 := by
      rw [List.map_map]
      have h0 : ((names.map (Prod.snd ∘ fun nm : String => (nm, (0 : ℚ))))).sum
          = (names.length : ℚ) * 0 := sum_map_const names 0
      rw [h0]
      ring
    simp only [normalizePercentages, htot, gt_iff_lt, lt_irrefl, if_false]
    rw [List.map_map]
    rfl
  constructor
  · rw [hscores, hnorm]
  · unfold rebalanceOptimalPercentages
    rw [hscores, hnorm]
    have hcap' : capPercentages cap (names.map (fun nm => (nm, (33.33 : ℚ))))
        = names.map (fun nm => (nm, if (33.33 : ℚ) > cap then cap else 33.33)) := by
      unfold capPercentages
      rw [List.map_map]
      rfl
    rw [hcap']
    set c := (if (33.33 : ℚ) > cap then cap else 33.33) with hc
    have hcpos : 0 < c := by
      rw [hc]
      split_ifs
      · exact hcap
      · norm_num
    have hnpos : (0 : ℚ) < (names.length : ℚ) := by
      have h := List.length_pos.mpr hne
      exact_mod_cast h
    have htot2 : ((names.map (fun nm => (nm, c))).map Prod.snd).sum
        = (names.length : ℚ) * c := by
      rw [List.map_map]
      exact sum_map_const names c
    have hval : c / ((names.length : ℚ) * c) * 100 = 100 / (names.length : ℚ) := by
      field_simp
      ring
    unfold renormalizePercentages
    simp only [htot2]
    rw [if_pos (mul_pos hnpos hcpos)]
    rw [List.map_map]
    refine List.map_congr_left (fun nm _ => ?_)
    dsimp only [Function.comp]
    rw [hval]

/-- Witness for claim C10 at a concrete input: three maximally risky
strategies with cap 40 each receive 100/3. -/
theorem rebalance_equal_split_witness :
    rebalanceOptimalPercentages [(("a"), 1), (("b"), 1), (("c"), 1)] 0.5 40
      = [(("a"), 100/3), (("b"), 100/3), (("c"), 100/3)] := by
  have h := (rebalance_equal_split_when_all_max_risk [("a"), ("b"), ("c")] 0.5 40
    (by simp) (by norm_num)).2
  simpa using h

end RiskAPI
